import Mathlib

/-!
Verification development for the helix-bot repository.

We give a shallow embedding of the account-linking workflow
(`NicknameModal.callback` in `src/cogs/ss14_auth_cog.py`), the database
operations it uses (`src/modules/database_manager.py`), the periodic
message-reconciliation task (`SS14AuthCog.discord_auth_update`) and the
external enrichment lookup (`src/modules/get_creation_date.py`), and prove
the specification's claims about them.

Stateful Python code is embedded as pure functions from an explicit
environment and database state to a result, an event trace (the external
side effects performed, in order) and the new database state.  Exceptions
raised by the chat platform (`disnake.Forbidden` on a direct message,
`disnake.NotFound` on a message fetch) are modelled as environment flags,
and `requests` exceptions as constructors of an outcome type.
-/

namespace HelixBot

/-! ### Python `str.strip` -/

/-- Python's default `str.strip` removes leading and trailing whitespace
characters; we model the whitespace class by `Char.isWhitespace`. -/
def isPySpace (c : Char) : Bool := c.isWhitespace

/-- `str.strip` on the underlying character list: drop leading whitespace,
then drop trailing whitespace. -/
def stripChars (l : List Char) : List Char :=
  ((l.dropWhile isPySpace).reverse.dropWhile isPySpace).reverse

/-- Model of Python `s.strip()`. -/
def py_strip (s : String) : String := String.mk (stripChars s.data)

theorem dropWhile_dropWhile (p : Char → Bool) (l : List Char) :
    (l.dropWhile p).dropWhile p = l.dropWhile p := by
  induction l with
  | nil => rfl
  | cons a l ih =>
    by_cases h : p a
    · simp [List.dropWhile, h, ih]
    · simp [List.dropWhile, h]

theorem dropWhile_head_false (p : Char → Bool) (l : List Char) (a : Char)
    (t : List Char) (h : l.dropWhile p = a :: t) : p a = false := by
  induction l with
  | nil => simp [List.dropWhile] at h
  | cons b l ih =>
    by_cases hb : p b
    · simp [List.dropWhile, hb] at h
      exact ih h
    · simp [List.dropWhile, hb] at h
      rcases h with ⟨rfl, rfl⟩
      simp [hb]

theorem dropWhile_is_suffix (p : Char → Bool) (l : List Char) :
    ∃ pre, l = pre ++ l.dropWhile p := by
  induction l with
  | nil => exact ⟨[], rfl⟩
  | cons a l ih =>
    by_cases h : p a
    · rcases ih with ⟨pre, hpre⟩
      refine ⟨a :: pre, ?_⟩
      simp [List.dropWhile, h, ← hpre]
    · exact ⟨[], by simp [List.dropWhile, h]⟩

/-- `stripChars` is idempotent. -/
theorem stripChars_idem (l : List Char) :
    stripChars (stripChars l) = stripChars l := by
  unfold stripChars
  set t := l.dropWhile isPySpace with ht
  set u := t.reverse.dropWhile isPySpace with hu
  -- Step 1: `u.reverse` is a prefix of `t`, whose head (if any) fails the
  -- whitespace test, so the leading `dropWhile` on `u.reverse` is a no-op.
  have step1 : u.reverse.dropWhile isPySpace = u.reverse := by
    rcases dropWhile_is_suffix isPySpace t.reverse with ⟨pre, hpre⟩
    match hur : u.reverse with
    | [] => rfl
    | a :: v =>
      have htform : t = a :: (v ++ pre.reverse) := by
        have : t.reverse = pre ++ u := hpre
        have h2 : t = u.reverse ++ pre.reverse := by
          have := congrArg List.reverse this
          simpa using this
        rw [hur] at h2
        simpa using h2
      have ha : isPySpace a = false :=
        dropWhile_head_false isPySpace l a (v ++ pre.reverse) (by rw [← ht, htform])
      simp [List.dropWhile, ha]
  rw [step1]
  simp only [List.reverse_reverse]
  rw [dropWhile_dropWhile]

/-- `py_strip` is idempotent. -/
theorem py_strip_idem (s : String) : py_strip (py_strip s) = py_strip s := by
  unfold py_strip
  rw [show (String.mk (stripChars s.data)).data = stripChars s.data from rfl,
    stripChars_idem]

theorem py_strip_strip_ne_empty (s : String) (h : py_strip s ≠ "") :
    py_strip (py_strip s) ≠ "" := by
  rw [py_strip_idem]; exact h

/-! ### Database model (`src/modules/database_manager.py`)

The two tables the linking workflow touches:
* `player` with columns `user_id`, `last_seen_user_name`;
* `discord_user` with columns `discord_user_id`, `user_id`, `discord_id`.
-/

/-- A row of the `discord_user` table. -/
structure DiscordUserRow where
  discord_user_id : Nat
  user_id : String
  discord_id : String
deriving DecidableEq, Repr

/-- Database state: the `player` table as `(user_id, last_seen_user_name)`
pairs, and the `discord_user` table. -/
structure DB where
  player : List (String × String)
  discord_user : List DiscordUserRow
deriving DecidableEq, Repr

/-- `DatabaseManagerSS14.get_username_by_user_id`: `SELECT
last_seen_user_name FROM player WHERE user_id = %s` with `fetchone`,
returning the name of the first matching row or `None`. -/
def get_username_by_user_id (db : DB) (uid : String) : Option String :=
  match db.player.find? (fun r => r.1 = uid) with
  | some r => some r.2
  | none => none

/-- `DatabaseManagerSS14.is_user_linked`: true iff the `discord_id` or the
`user_id` already appears in the `discord_user` table. -/
def is_user_linked (db : DB) (user_id discord_id : String) : Bool :=
  let result_discord_id := db.discord_user.find? (fun r => r.discord_id = discord_id)
  let result_user_id := db.discord_user.find? (fun r => r.user_id = user_id)
  result_discord_id.isSome || result_user_id.isSome

/-- `DatabaseManagerSS14.link_user_to_discord`: reads
`COALESCE(MAX(discord_user_id), 0)`, inserts a row keyed `max + 1`, and
commits. -/
def link_user_to_discord (db : DB) (user_id discord_id : String) : DB :=
  let max_id := db.discord_user.foldl (fun m r => Nat.max m r.discord_user_id) 0
  let next_id := max_id + 1
  { db with discord_user := db.discord_user ++ [⟨next_id, user_id, discord_id⟩] }

/-- Number of `discord_user` rows recording the link `(uid, did)`. -/
def linkCount (db : DB) (uid did : String) : Nat :=
  (db.discord_user.filter (fun r => r.user_id = uid && r.discord_id = did)).length

/-! ### The linking workflow (`NicknameModal.callback`)

The callback's external side effects are recorded as an ordered event
trace.  `deferResponse` is `inter.response.defer(with_message=False,
ephemeral=True)` (no visible message), `consoleLog` is `print`,
`dmSend` a delivered direct message, `ephemeralSend` a message sent with
`ephemeral=True`, `auditSend` a post to the tech/audit channel,
`fetchUser` the `inter.bot.fetch_user` call, `dbReadPlayer` /
`dbReadLinked` the two database reads, `enrichFetch` the
`get_creation_date` HTTP call, and `dbCommitInsert` the committed insert
done by `link_user_to_discord`. -/
inductive Event where
  | deferResponse : Event
  | consoleLog (msg : String) : Event
  | dmSend (discordId msg : String) : Event
  | ephemeralSend (msg : String) : Event
  | auditSend (msg : String) : Event
  | fetchUser (discordId : String) : Event
  | dbReadPlayer (uid : String) : Event
  | dbReadLinked (uid did : String) : Event
  | enrichFetch (uid : String) : Event
  | dbCommitInsert (uid did : String) : Event
deriving DecidableEq, Repr

/-- How a run of the callback ends. `noChannelSilent` is the early return
when the tech channel cannot be resolved; `linked` is the success path. -/
inductive LinkOutcome where
  | noChannelSilent : LinkOutcome
  | emptyInput : LinkOutcome
  | unknownPlayer : LinkOutcome
  | alreadyLinked : LinkOutcome
  | linked : LinkOutcome
deriving DecidableEq, Repr

/-- Environment of one callback invocation: whether
`inter.bot.get_channel(cfg.LOG_TECH_CHANNEL_AUTH_ID)` resolved, whether
`user.send` raises `disnake.Forbidden` for this recipient, the `name` of
the user returned by `fetch_user`, and the string returned by the
`get_creation_date` HTTP lookup. -/
structure LinkEnv where
  techChannelResolved : Bool
  dmForbidden : Bool
  userName : String
  creationDate : String
deriving DecidableEq, Repr

/-- Result of one callback invocation. -/
structure LinkResult where
  outcome : LinkOutcome
  events : List Event
  db : DB
deriving DecidableEq, Repr

/-- `print` text when the tech channel is missing. -/
def techMissingLog : String :=
  "Ошибка: tech_channel не найден. Проверь ID или права доступа."

/-- Ephemeral error for a blank user id. -/
def emptyInputMsg : String :=
  "❌ Ошибка: User ID не может быть пустым.\nПожалуйста, введите ваш User ID."

/-- DM / ephemeral text when the user id is not in the player table. -/
def notFoundMsg : String :=
  "❌ Ваш user_id не найден в базе данных. Попробуйте позже!"

/-- DM / ephemeral text when the account is already linked. -/
def alreadyLinkedMsg : String :=
  "❌ Ваш аккаунт уже привязан! Повторная привязка невозможна."

/-- `print` text when the direct message raises `disnake.Forbidden`. -/
def dmFailLog (discordId : String) : String :=
  "⚠️ Не удалось отправить ЛС пользователю " ++ discordId

/-- Audit post for an attempt to link a nonexistent user id. -/
def auditUnknownMsg (discordId uid : String) : String :=
  "⚠️ Пользователь <@" ++ discordId ++ "> пытался привязать несуществующий user_id **" ++
    uid ++ "**."

/-- Audit post for a repeated link attempt. -/
def auditRepeatMsg (discordId uid : String) : String :=
  "⚠️ Пользователь <@" ++ discordId ++ "> пытался повторно привязать user_id **" ++
    uid ++ "**."

/-- Audit post on a successful link. -/
def auditSuccessMsg (userName discordId userNamePlayer uid creationDate : String) : String :=
  "✅ **Привязка аккаунта**\n> **Discord ID:** " ++ userName ++ " - " ++ discordId ++
    " \n> **SS14 ID:** " ++ userNamePlayer ++ " - `" ++ uid ++
    "`\n> **Дата создания аккаунта SS14:** " ++ creationDate ++ "\n"

/-- Description of the ephemeral success embed. -/
def successMsg (userNamePlayer uid : String) : String :=
  "Ваш SS14 аккаунт " ++ userNamePlayer ++ " user_id **" ++ uid ++ "** успешно привязан."

/-- Python `f"{x}"` applied to the result of `get_username_by_user_id`
(a `str` or `None`). -/
def pyStr (o : Option String) : String :=
  match o with
  | some s => s
  | none => "None"

/-- Shallow embedding of `NicknameModal.callback`
(`src/cogs/ss14_auth_cog.py`).  `rawInput` is
`inter.text_values["user_id_input"]` and `discordId` is
`str(inter.author.id)`.  The `try` blocks wrapping `fetch_user`,
`user.send`, `inter.send` on the two notifying failure paths catch only
`disnake.Forbidden`, raised (per the environment flag) by `user.send`:
when it is raised, execution jumps to the handler's `print` and the
subsequent `inter.send` inside the same `try` is skipped; the audit post
after the handler still runs. -/
def callback (env : LinkEnv) (db : DB) (rawInput discordId : String) : LinkResult :=
  let user_id_input := py_strip rawInput
  if env.techChannelResolved = false then
    { outcome := .noChannelSilent
      events := [.deferResponse, .consoleLog techMissingLog]
      db := db }
  else if user_id_input = "" ∨ py_strip user_id_input = "" then
    { outcome := .emptyInput
      events := [.deferResponse, .ephemeralSend emptyInputMsg]
      db := db }
  else
    let user_id := user_id_input
    match get_username_by_user_id db user_id with
    | none =>
      let notif :=
        if env.dmForbidden then
          [Event.fetchUser discordId, Event.consoleLog (dmFailLog discordId)]
        else
          [Event.fetchUser discordId, Event.dmSend discordId notFoundMsg,
            Event.ephemeralSend notFoundMsg]
      { outcome := .unknownPlayer
        events := [Event.deferResponse, Event.dbReadPlayer user_id] ++ notif ++
          [Event.auditSend (auditUnknownMsg discordId user_id)]
        db := db }
    | some _ =>
      if is_user_linked db user_id discordId then
        let notif :=
          if env.dmForbidden then
            [Event.fetchUser discordId, Event.consoleLog (dmFailLog discordId)]
          else
            [Event.fetchUser discordId, Event.dmSend discordId alreadyLinkedMsg,
              Event.ephemeralSend alreadyLinkedMsg]
        { outcome := .alreadyLinked
          events := [Event.deferResponse, Event.dbReadPlayer user_id,
              Event.dbReadLinked user_id discordId] ++ notif ++
            [Event.auditSend (auditRepeatMsg discordId user_id)]
          db := db }
      else
        let db2 := link_user_to_discord db user_id discordId
        let userNamePlayer := pyStr (get_username_by_user_id db2 user_id)
        { outcome := .linked
          events := [Event.deferResponse, Event.dbReadPlayer user_id,
            Event.dbReadLinked user_id discordId,
            Event.enrichFetch user_id,
            Event.dbCommitInsert user_id discordId,
            Event.fetchUser discordId,
            Event.dbReadPlayer user_id,
            Event.auditSend (auditSuccessMsg env.userName discordId userNamePlayer
              user_id env.creationDate),
            Event.ephemeralSend (successMsg userNamePlayer user_id)]
          db := db2 }

/-! ### Event classifiers -/

/-- Is this event an ephemeral message to the submitter? -/
def isEphemeralSend : Event → Bool
  | .ephemeralSend _ => true
  | _ => false

/-- Is this event an audit-channel post? -/
def isAuditSend : Event → Bool
  | .auditSend _ => true
  | _ => false

/-- Is this event a delivered direct message? -/
def isDmSend : Event → Bool
  | .dmSend _ _ => true
  | _ => false

/-- Is this event a console log? -/
def isConsoleLog : Event → Bool
  | .consoleLog _ => true
  | _ => false

/-- Is this event a read of or write to the account directory? -/
def isDbAccess : Event → Bool
  | .dbReadPlayer _ => true
  | .dbReadLinked _ _ => true
  | .dbCommitInsert _ _ => true
  | _ => false

/-- Is this event a notification (audit post, DM, or ephemeral reply)? -/
def isNotification : Event → Bool
  | .ephemeralSend _ => true
  | .auditSend _ => true
  | .dmSend _ _ => true
  | _ => false

/-- The trace contains an ephemeral message. -/
def hasEphemeral (ev : List Event) : Bool := ev.any isEphemeralSend

/-- The trace contains an audit-channel post. -/
def hasAudit (ev : List Event) : Bool := ev.any isAuditSend

/-- The trace contains a delivered direct message. -/
def hasDm (ev : List Event) : Bool := ev.any isDmSend

/-- The trace contains a console log. -/
def hasConsoleLog (ev : List Event) : Bool := ev.any isConsoleLog

/-- Number of audit-channel posts in the trace. -/
def auditCount (ev : List Event) : Nat := (ev.filter isAuditSend).length

/-- Number of account-directory accesses in the trace. -/
def dbAccessCount (ev : List Event) : Nat := (ev.filter isDbAccess).length

/-- An outcome other than success is a failure of the workflow. -/
def isFailure (o : LinkOutcome) : Bool := o ≠ LinkOutcome.linked

/-! ### The reconciliation task (`SS14AuthCog.discord_auth_update`)

The chat-platform surface the task touches: whether
`self.bot.get_channel(cfg.CHANNEL_AUTH_DISCORD_SS14_ID)` resolved, which
message ids `channel.fetch_message` finds (any other id raises
`disnake.NotFound`), and the channel's pinned messages in `channel.pins()`
order, each tagged with whether its author is the bot
(`message.author == channel.guild.me`). -/
structure AuthWorld where
  channelExists : Bool
  fetchTable : List Nat
  pinnedMsgs : List (Nat × Bool)
deriving DecidableEq, Repr

/-- What a run of the task does. `raisedAttrError` records that the run
escaped with an `AttributeError`: with `channel = None` the code after the
`if channel:` block still executes and calls `channel.pins()` on `None`
inside `get_pinned_message`. -/
inductive TaskResult where
  | editedById (id : Nat) : TaskResult
  | editedPinned (id : Nat) : TaskResult
  | sentAndPinned : TaskResult
  | raisedAttrError : TaskResult
deriving DecidableEq, Repr

/-- Events of one task run: a `fetch_message` attempt, an `edit` of an
existing message, sending the new prompt, pinning it, the pinned-messages
scan, and `print` logs. -/
inductive TaskEvent where
  | fetchMessage (id : Nat) : TaskEvent
  | editMessage (id : Nat) : TaskEvent
  | sendPrompt : TaskEvent
  | pinMessage : TaskEvent
  | scanPins : TaskEvent
  | consoleLog (msg : String) : TaskEvent
deriving DecidableEq, Repr

/-- `get_pinned_message(channel)`: return the first pinned message whose
author is the bot, else `None`. -/
def get_pinned_message (pins : List (Nat × Bool)) : Option Nat :=
  match pins.find? (fun m => m.2) with
  | some m => some m.1
  | none => none

/-- The fall-through after the persisted-id branch: scan the pins for a
bot-authored message and edit it, else send a new prompt and pin it. -/
def pinnedFallback (w : AuthWorld) : TaskResult × List TaskEvent :=
  match get_pinned_message w.pinnedMsgs with
  | some pid =>
    (.editedPinned pid,
      [.scanPins, .editMessage pid,
        .consoleLog ("✅ Используем закреплённое сообщение Update Discord Auth (ID: " ++
          toString pid ++ ")")])
  | none =>
    (.sentAndPinned,
      [.scanPins, .sendPrompt, .pinMessage,
        .consoleLog "✅ Отправлено новое сообщение Update Discord Auth"])

/-- Shallow embedding of `SS14AuthCog.discord_auth_update`.  `message_id`
is `cfg.AUTH_MESSAGE_ID` (`none` models a falsy/unconfigured value).  When
the channel resolves and a persisted id is configured, the code fetches
and edits it, returning; `disnake.NotFound` is caught, logged, and control
falls through to the pinned scan.  When the channel does not resolve, the
code after the `if channel:` guard still runs: `get_pinned_message(None)`
dereferences `None` and raises `AttributeError`. -/
def discord_auth_update (w : AuthWorld) (message_id : Option Nat) :
    TaskResult × List TaskEvent :=
  if w.channelExists then
    match message_id with
    | some mid =>
      if mid ∈ w.fetchTable then
        (.editedById mid,
          [.fetchMessage mid, .editMessage mid,
            .consoleLog ("✅ Сообщение обновлено Update Discord Auth (ID: " ++
              toString mid ++ ")")])
      else
        let fb := pinnedFallback w
        (fb.1, [.fetchMessage mid,
          .consoleLog "❌ Старое сообщение не найдено. Создаём новое..."] ++ fb.2)
    | none => pinnedFallback w
  else
    (.raisedAttrError, [])

/-- The value of `cfg.AUTH_MESSAGE_ID` in `src/config.py`. -/
def AUTH_MESSAGE_ID : Nat := 1352243068220342362

/-- Is this task event one of the prompt-level actions (an edit of an
existing message or sending a new prompt)? -/
def isPrimaryAction : TaskEvent → Bool
  | .editMessage _ => true
  | .sendPrompt => true
  | _ => false

/-- Number of prompt-level actions in a task trace. -/
def primaryActionCount (ev : List TaskEvent) : Nat :=
  (ev.filter isPrimaryAction).length

/-- Modelled from the spec: the ordered first-success-wins algorithm of
§4.2 — (1) a configured persisted id that fetches is edited in place;
(2) otherwise or on not-found, a bot-authored pinned message is edited;
(3) otherwise a new prompt is sent and pinned. -/
def reconcileSpec (w : AuthWorld) (message_id : Option Nat) : TaskResult :=
  match message_id with
  | some mid =>
    if mid ∈ w.fetchTable then .editedById mid
    else
      match get_pinned_message w.pinnedMsgs with
      | some pid => .editedPinned pid
      | none => .sentAndPinned
  | none =>
    match get_pinned_message w.pinnedMsgs with
    | some pid => .editedPinned pid
    | none => .sentAndPinned

/-! ### The enrichment lookup (`src/modules/get_creation_date.py`) -/

/-- Exceptions the body of `get_creation_date` can raise.
`requests.exceptions.HTTPError` (from `raise_for_status`),
`requests.exceptions.RequestException` (from `requests.get`),
`ValueError` (from `response.json()` on malformed JSON or from
`datetime.fromisoformat` on an unparsable string), and any other
exception. -/
inductive PyExc where
  | httpError (err : String) : PyExc
  | requestExc (err : String) : PyExc
  | valueError : PyExc
  | otherExc (err : String) : PyExc
deriving DecidableEq, Repr

/-- Outcome of the HTTP interaction `requests.get(url)` /
`response.raise_for_status()` / `response.json()`: the request raised, the
status check raised, some other exception was raised, or a body was
obtained whose `.json()` either raises `ValueError` or yields a
string-valued JSON object. -/
inductive HttpResult where
  | raiseHttp (err : String) : HttpResult
  | raiseRequest (err : String) : HttpResult
  | raiseOther (err : String) : HttpResult
  | ok (json : Except Unit (List (String × String))) : HttpResult
deriving Repr

/-- Python `dict.get(key, default)` over a string-valued JSON object. -/
def dict_get (d : List (String × String)) (key dflt : String) : String :=
  match d.find? (fun kv => kv.1 = key) with
  | some kv => kv.2
  | none => dflt

/-- The `try` body of `get_creation_date`, raising by returning
`Except.error`.  `fromiso` is the library boundary
`int(datetime.fromisoformat(s).timestamp())`: it yields the unix
timestamp, or `ValueError` for an unparsable string. -/
def get_creation_date_body (fromiso : String → Except Unit Int)
    (res : HttpResult) : Except PyExc String :=
  match res with
  | .raiseHttp e => .error (.httpError e)
  | .raiseRequest e => .error (.requestExc e)
  | .raiseOther e => .error (.otherExc e)
  | .ok json =>
    match json with
    | .error _ => .error .valueError
    | .ok data =>
      let player_date := dict_get data "createdTime" "Дата создания не найдена"
      match fromiso player_date with
      | .error _ => .error .valueError
      | .ok creation_date_unix => .ok ("<t:" ++ toString creation_date_unix ++ ":f>")

/-- Shallow embedding of `get_creation_date`: the `try` body with the four
`except` handlers.  The handlers cover every exception the body raises
(the list ends with `except Exception`), so the function always returns a
string. -/
def get_creation_date (fromiso : String → Except Unit Int)
    (res : HttpResult) : String :=
  match get_creation_date_body fromiso res with
  | .ok s => s
  | .error (.httpError e) => "Ошибка при запросе API: " ++ e
  | .error (.requestExc e) => "Ошибка соединения: " ++ e
  | .error .valueError => "Ошибка при разборе ответа API (неправильный формат JSON)"
  | .error (.otherExc e) => "Произошла ошибка: " ++ e

/-! ### Shared concrete states for witnesses and counterexamples -/

/-- A database whose player table knows `UID-1` and with no links yet. -/
def dbUnlinked : DB := { player := [("UID-1", "Alice")], discord_user := [] }

/-- A database where `UID-1` is already linked to discord id `42`. -/
def dbOneLinked : DB :=
  { player := [("UID-1", "Alice")], discord_user := [⟨1, "UID-1", "42"⟩] }

/-- A concrete stand-in for the `datetime.fromisoformat` boundary. -/
def sampleIso (s : String) : Except Unit Int :=
  if s = "2020-01-01T00:00:00+00:00" then .ok 1577836800 else .error ()

/-! ### Helper lemmas -/

theorem not_blank_cond (raw : String) (hne : py_strip raw ≠ "") :
    ¬(py_strip raw = "" ∨ py_strip (py_strip raw) = "") := by
  push_neg
  exact ⟨hne, py_strip_strip_ne_empty raw hne⟩

theorem find_isSome_of_mem {α : Type} (p : α → Bool) (l : List α) (x : α)
    (hx : x ∈ l) (hp : p x = true) : (l.find? p).isSome = true := by
  induction l with
  | nil => cases hx
  | cons a l ih =>
    by_cases ha : p a
    · simp [List.find?, ha]
    · have ha' : p a = false := by simpa using ha
      rcases List.mem_cons.mp hx with rfl | hmem
      · exact absurd hp (by simp [ha'])
      · simpa [List.find?, ha'] using ih hmem

theorem exists_row_of_linkCount_pos (db : DB) (p d : String)
    (h : 0 < linkCount db p d) :
    ∃ r ∈ db.discord_user, r.user_id = p ∧ r.discord_id = d := by
  unfold linkCount at h
  obtain ⟨r, hr⟩ := List.exists_mem_of_length_pos h
  have hmem := List.mem_filter.mp hr
  refine ⟨r, hmem.1, ?_⟩
  have := hmem.2
  simp only [Bool.and_eq_true, decide_eq_true_eq] at this
  exact this

theorem is_user_linked_of_row (db : DB) (uid did p d0 : String)
    (hrow : ∃ r ∈ db.discord_user, r.user_id = p ∧ r.discord_id = d0)
    (helem : uid = p ∨ did = d0) :
    is_user_linked db uid did = true := by
  obtain ⟨r, hrmem, hrp, hrd⟩ := hrow
  unfold is_user_linked
  simp only [Bool.or_eq_true]
  rcases helem with h | h
  · right
    exact find_isSome_of_mem _ _ r hrmem (by simp [hrp, h])
  · left
    exact find_isSome_of_mem _ _ r hrmem (by simp [hrd, h])

/-! ### Claim theorems -/

/-- C10: for every submitted input, when the configured audit/tech channel
id does not resolve to a channel, the modal callback returns immediately
after a console log: no validation, no account-directory read or write, no
ephemeral reply — the linking workflow silently no-ops. -/
theorem C10_unresolved_tech_channel_silent_noop (forb : Bool) (un cd : String)
    (db : DB) (raw d : String) :
    callback ⟨false, forb, un, cd⟩ db raw d =
      { outcome := .noChannelSilent
        events := [.deferResponse, .consoleLog techMissingLog]
        db := db } ∧
    dbAccessCount (callback ⟨false, forb, un, cd⟩ db raw d).events = 0 ∧
    hasEphemeral (callback ⟨false, forb, un, cd⟩ db raw d).events = false := by
  refine ⟨rfl, rfl, rfl⟩

/-- C6: for every blank or whitespace-only `raw_player_id`, the callback
(with the tech channel resolved) trims the input, fails with `EmptyInput`
as an ephemeral error reply, performs no account-directory read or write,
and leaves the database unchanged. -/
theorem C6_blank_input_fails_empty_input (forb : Bool) (un cd : String)
    (db : DB) (raw d : String) (hblank : py_strip raw = "") :
    callback ⟨true, forb, un, cd⟩ db raw d =
      { outcome := .emptyInput
        events := [.deferResponse, .ephemeralSend emptyInputMsg]
        db := db } ∧
    dbAccessCount (callback ⟨true, forb, un, cd⟩ db raw d).events = 0 ∧
    hasEphemeral (callback ⟨true, forb, un, cd⟩ db raw d).events = true := by
  have e1 : callback ⟨true, forb, un, cd⟩ db raw d =
      { outcome := .emptyInput
        events := [.deferResponse, .ephemeralSend emptyInputMsg]
        db := db } := by
    unfold callback
    simp [hblank]
  exact ⟨e1, by rw [e1]; rfl, by rw [e1]; rfl⟩

/-- Witness for C6 at the spec's scenario input `"  "`. -/
theorem C6_blank_input_fails_empty_input_witness :
    callback ⟨true, false, "alice", "date"⟩ dbUnlinked "  " "42" =
      { outcome := .emptyInput
        events := [.deferResponse, .ephemeralSend emptyInputMsg]
        db := dbUnlinked } ∧
    dbAccessCount (callback ⟨true, false, "alice", "date"⟩ dbUnlinked "  " "42").events = 0 ∧
    hasEphemeral (callback ⟨true, false, "alice", "date"⟩ dbUnlinked "  " "42").events = true :=
  C6_blank_input_fails_empty_input false "alice" "date" dbUnlinked "  " "42" (by decide)

/-- C5 (code bug): when the channel lookup returns `None`, the
reconciliation task does not log-and-exit — the code dedented out of the
`if channel:` guard still runs, `get_pinned_message(None)` dereferences
`None`, and the run escapes with an `AttributeError` after performing no
external action and printing nothing. -/
theorem C5_unresolved_channel_raises :
    discord_auth_update ⟨false, [], [(9, true)]⟩ (some AUTH_MESSAGE_ID) =
      (TaskResult.raisedAttrError, []) := rfl

/-- C9: `get_creation_date` always returns a string and never raises: each
HTTP error, connection error, JSON/parse error, or other exception is
turned into an inline error string, and on success it returns the
formatted account-creation timestamp. -/
theorem C9_get_creation_date_total_string (fromiso : String → Except Unit Int)
    (e : String) (d : List (String × String)) (t : Int) :
    get_creation_date fromiso (.raiseHttp e) = "Ошибка при запросе API: " ++ e ∧
    get_creation_date fromiso (.raiseRequest e) = "Ошибка соединения: " ++ e ∧
    get_creation_date fromiso (.raiseOther e) = "Произошла ошибка: " ++ e ∧
    get_creation_date fromiso (.ok (.error ())) =
      "Ошибка при разборе ответа API (неправильный формат JSON)" ∧
    (fromiso (dict_get d "createdTime" "Дата создания не найдена") = .error () →
      get_creation_date fromiso (.ok (.ok d)) =
        "Ошибка при разборе ответа API (неправильный формат JSON)") ∧
    (fromiso (dict_get d "createdTime" "Дата создания не найдена") = .ok t →
      get_creation_date fromiso (.ok (.ok d)) = "<t:" ++ toString t ++ ":f>") := by
  refine ⟨rfl, rfl, rfl, rfl, ?_, ?_⟩
  · intro h
    simp [get_creation_date, get_creation_date_body, h]
  · intro h
    simp [get_creation_date, get_creation_date_body, h]

/-- Witness for C9 at a concrete parse boundary and response body. -/
theorem C9_get_creation_date_total_string_witness :
    get_creation_date sampleIso
        (.ok (.ok [("createdTime", "2020-01-01T00:00:00+00:00")])) =
      "<t:1577836800:f>" :=
  (C9_get_creation_date_total_string sampleIso "err"
      [("createdTime", "2020-01-01T00:00:00+00:00")] 1577836800).2.2.2.2.2 rfl

/-- C1: for a previously-linked `(p, d0)` pair (one `discord_user` row),
a repeated callback submission whose trimmed player id equals `p` or whose
requester identity equals `d0` — with the tech channel resolved, the input
non-blank and present in the player table — fails with `AlreadyLinked`
(`is_user_linked` finds the `discord_id` or the `user_id` in
`discord_user`), performs no insert, and the row count for the pair stays
at 1. -/
theorem C1_repeat_link_fails_already_linked (forb : Bool) (un cd : String)
    (db : DB) (raw d p d0 : String)
    (hcount : linkCount db p d0 = 1)
    (hne : py_strip raw ≠ "")
    (hfound : (get_username_by_user_id db (py_strip raw)).isSome = true)
    (helem : py_strip raw = p ∨ d = d0) :
    (callback ⟨true, forb, un, cd⟩ db raw d).outcome = .alreadyLinked ∧
    (callback ⟨true, forb, un, cd⟩ db raw d).db = db ∧
    linkCount (callback ⟨true, forb, un, cd⟩ db raw d).db p d0 = 1 := by
  have hb := not_blank_cond raw hne
  obtain ⟨uname, hu⟩ := Option.isSome_iff_exists.mp hfound
  have hrow := exists_row_of_linkCount_pos db p d0 (by omega)
  have hlink := is_user_linked_of_row db (py_strip raw) d p d0 hrow helem
  have e1 : (callback ⟨true, forb, un, cd⟩ db raw d).outcome = .alreadyLinked ∧
      (callback ⟨true, forb, un, cd⟩ db raw d).db = db := by
    unfold callback
    simp [hb, hu, hlink]
  exact ⟨e1.1, e1.2, by rw [e1.2]; exact hcount⟩

/-- Witness for C1: `UID-1` is linked to discord id `42`; re-submitting
`" UID-1 "` from a different identity `99` fails with `AlreadyLinked` and
the row count stays 1. -/
theorem C1_repeat_link_fails_already_linked_witness :
    (callback ⟨true, false, "alice", "date"⟩ dbOneLinked " UID-1 " "99").outcome =
      LinkOutcome.alreadyLinked ∧
    (callback ⟨true, false, "alice", "date"⟩ dbOneLinked " UID-1 " "99").db = dbOneLinked ∧
    linkCount (callback ⟨true, false, "alice", "date"⟩ dbOneLinked " UID-1 " "99").db
      "UID-1" "42" = 1 :=
  C1_repeat_link_fails_already_linked false "alice" "date" dbOneLinked
    " UID-1 " "99" "UID-1" "42" (by decide) (by decide) (by decide)
    (Or.inl (by decide))

/-- C7: for every trimmed non-empty input absent from the player table
(with the tech channel resolved), the callback fails with `UnknownPlayer`,
inserts nothing into `discord_user`, and produces exactly one
audit-channel post. -/
theorem C7_unknown_player_no_record_one_audit (forb : Bool) (un cd : String)
    (db : DB) (raw d : String)
    (hne : py_strip raw ≠ "")
    (habsent : get_username_by_user_id db (py_strip raw) = none) :
    (callback ⟨true, forb, un, cd⟩ db raw d).outcome = .unknownPlayer ∧
    (callback ⟨true, forb, un, cd⟩ db raw d).db = db ∧
    auditCount (callback ⟨true, forb, un, cd⟩ db raw d).events = 1 := by
  have hb := not_blank_cond raw hne
  unfold callback
  cases forb <;>
    simp [hb, habsent, auditCount, isAuditSend]

/-- Witness for C7 at the spec's scenario input `"UID-404"`. -/
theorem C7_unknown_player_no_record_one_audit_witness :
    (callback ⟨true, false, "alice", "date"⟩ dbUnlinked "UID-404" "42").outcome =
      LinkOutcome.unknownPlayer ∧
    (callback ⟨true, false, "alice", "date"⟩ dbUnlinked "UID-404" "42").db = dbUnlinked ∧
    auditCount (callback ⟨true, false, "alice", "date"⟩ dbUnlinked "UID-404" "42").events = 1 :=
  C7_unknown_player_no_record_one_audit false "alice" "date" dbUnlinked
    "UID-404" "42" (by decide) (by decide)

/-- C8: on the success path of the callback, the committed insert
(`link_user_to_discord`) appears in the event trace strictly before every
notification: the events before the commit contain no audit post, DM, or
ephemeral reply, and the audit post and ephemeral success reply follow
it. -/
theorem C8_commit_before_notifications (forb : Bool) (un cd : String)
    (db : DB) (raw d : String)
    (hne : py_strip raw ≠ "")
    (hfound : (get_username_by_user_id db (py_strip raw)).isSome = true)
    (hnotlinked : is_user_linked db (py_strip raw) d = false) :
    (callback ⟨true, forb, un, cd⟩ db raw d).outcome = .linked ∧
    (callback ⟨true, forb, un, cd⟩ db raw d).db =
      link_user_to_discord db (py_strip raw) d ∧
    ∃ pre post,
      (callback ⟨true, forb, un, cd⟩ db raw d).events =
        pre ++ Event.dbCommitInsert (py_strip raw) d :: post ∧
      (∀ e ∈ pre, isNotification e = false) ∧
      hasAudit post = true ∧ hasEphemeral post = true := by
  have hb := not_blank_cond raw hne
  obtain ⟨uname, hu⟩ := Option.isSome_iff_exists.mp hfound
  have hev : (callback ⟨true, forb, un, cd⟩ db raw d).events =
      [Event.deferResponse, Event.dbReadPlayer (py_strip raw),
        Event.dbReadLinked (py_strip raw) d,
        Event.enrichFetch (py_strip raw),
        Event.dbCommitInsert (py_strip raw) d,
        Event.fetchUser d,
        Event.dbReadPlayer (py_strip raw),
        Event.auditSend (auditSuccessMsg un d
          (pyStr (get_username_by_user_id (link_user_to_discord db (py_strip raw) d)
            (py_strip raw))) (py_strip raw) cd),
        Event.ephemeralSend (successMsg
          (pyStr (get_username_by_user_id (link_user_to_discord db (py_strip raw) d)
            (py_strip raw))) (py_strip raw))] := by
    unfold callback
    simp [hb, hu, hnotlinked]
  refine ⟨?_, ?_, ?_⟩
  · unfold callback
    simp [hb, hu, hnotlinked]
  · unfold callback
    simp [hb, hu, hnotlinked]
  · refine ⟨[Event.deferResponse, Event.dbReadPlayer (py_strip raw),
      Event.dbReadLinked (py_strip raw) d, Event.enrichFetch (py_strip raw)],
      [Event.fetchUser d, Event.dbReadPlayer (py_strip raw),
        Event.auditSend (auditSuccessMsg un d
          (pyStr (get_username_by_user_id (link_user_to_discord db (py_strip raw) d)
            (py_strip raw))) (py_strip raw) cd),
        Event.ephemeralSend (successMsg
          (pyStr (get_username_by_user_id (link_user_to_discord db (py_strip raw) d)
            (py_strip raw))) (py_strip raw))], ?_, ?_, ?_, ?_⟩
    · rw [hev]; rfl
    · intro e he
      fin_cases he <;> rfl
    · rfl
    · rfl

/-- Witness for C8: linking `UID-1` from identity `42` on the unlinked
database succeeds with the commit ahead of both notifications. -/
theorem C8_commit_before_notifications_witness :
    (callback ⟨true, false, "alice", "date"⟩ dbUnlinked "UID-1" "42").outcome =
      LinkOutcome.linked ∧
    (callback ⟨true, false, "alice", "date"⟩ dbUnlinked "UID-1" "42").db =
      link_user_to_discord dbUnlinked (py_strip "UID-1") "42" ∧
    ∃ pre post,
      (callback ⟨true, false, "alice", "date"⟩ dbUnlinked "UID-1" "42").events =
        pre ++ Event.dbCommitInsert (py_strip "UID-1") "42" :: post ∧
      (∀ e ∈ pre, isNotification e = false) ∧
      hasAudit post = true ∧ hasEphemeral post = true :=
  C8_commit_before_notifications false "alice" "date" dbUnlinked "UID-1" "42"
    (by decide) (by decide) (by decide)

/-- C2: on every run of the reconciliation task in which the prompt
channel resolves, the run performs exactly one prompt-level action (one
edit or one send) and agrees with the spec's ordered first-success-wins
algorithm: a configured and fetchable persisted id is edited in place;
otherwise or on not-found a bot-authored pinned message is edited;
otherwise a new prompt is sent and pinned.  In particular, with the
persisted reference lost but a bot-authored pinned message intact, the
task edits the pinned message rather than creating a second one. -/
theorem C2_reconciliation_first_success_wins (w : AuthWorld) (mid : Option Nat)
    (hch : w.channelExists = true) :
    (discord_auth_update w mid).1 = reconcileSpec w mid ∧
    primaryActionCount (discord_auth_update w mid).2 = 1 ∧
    (∀ m pid, mid = some m → m ∉ w.fetchTable →
      get_pinned_message w.pinnedMsgs = some pid →
      (discord_auth_update w mid).1 = .editedPinned pid) := by
  refine ⟨?_, ?_, ?_⟩
  · unfold discord_auth_update reconcileSpec pinnedFallback
    rw [hch]
    cases mid with
    | none =>
      cases hp : get_pinned_message w.pinnedMsgs <;> simp [hp]
    | some m =>
      by_cases hm : m ∈ w.fetchTable
      · simp [hm]
      · cases hp : get_pinned_message w.pinnedMsgs <;> simp [hm, hp]
  · unfold discord_auth_update pinnedFallback
    rw [hch]
    cases mid with
    | none =>
      cases hp : get_pinned_message w.pinnedMsgs <;>
        simp [hp, primaryActionCount, isPrimaryAction]
    | some m =>
      by_cases hm : m ∈ w.fetchTable
      · simp [hm, primaryActionCount, isPrimaryAction]
      · cases hp : get_pinned_message w.pinnedMsgs <;>
          simp [hm, hp, primaryActionCount, isPrimaryAction]
  · rintro m pid rfl hm hp
    unfold discord_auth_update pinnedFallback
    rw [hch]
    simp [hm, hp]

/-- Witness for C2: the persisted id does not fetch, a bot-authored pinned
message with id 9 exists, and the task edits it. -/
theorem C2_reconciliation_first_success_wins_witness :
    (discord_auth_update ⟨true, [], [(7, false), (9, true)]⟩ (some AUTH_MESSAGE_ID)).1 =
      reconcileSpec ⟨true, [], [(7, false), (9, true)]⟩ (some AUTH_MESSAGE_ID) ∧
    primaryActionCount
      (discord_auth_update ⟨true, [], [(7, false), (9, true)]⟩ (some AUTH_MESSAGE_ID)).2 = 1 ∧
    (∀ m pid, (some AUTH_MESSAGE_ID : Option Nat) = some m → m ∉ ([] : List Nat) →
      get_pinned_message [(7, false), (9, true)] = some pid →
      (discord_auth_update ⟨true, [], [(7, false), (9, true)]⟩ (some AUTH_MESSAGE_ID)).1 =
        .editedPinned pid) :=
  C2_reconciliation_first_success_wins ⟨true, [], [(7, false), (9, true)]⟩
    (some AUTH_MESSAGE_ID) rfl

/-- C3 counterexample: with the tech channel resolved, input `"UID-404"`
absent from the player table, and the submitter's DMs closed
(`disnake.Forbidden`), the callback fails with `UnknownPlayer` yet sends
no ephemeral message at all — the `inter.send` sits after `user.send`
inside the same `try`, so the raised `Forbidden` skips it.  This refutes
"every failure path results in an ephemeral message to the submitter". -/
theorem C3_counterexample_failure_without_ephemeral :
    isFailure (callback ⟨true, true, "alice", "date"⟩ dbUnlinked "UID-404" "42").outcome =
      true ∧
    hasEphemeral (callback ⟨true, true, "alice", "date"⟩ dbUnlinked "UID-404" "42").events =
      false := by
  decide

/-- C3 (amended): with the tech channel resolved and the submitter's DMs
open (no `Forbidden`), every failure path of the callback results in an
ephemeral message to the submitter. -/
theorem C3_failure_paths_send_ephemeral (un cd : String) (db : DB)
    (raw d : String)
    (hfail : isFailure (callback ⟨true, false, un, cd⟩ db raw d).outcome = true) :
    hasEphemeral (callback ⟨true, false, un, cd⟩ db raw d).events = true := by
  by_cases hb : py_strip raw = "" ∨ py_strip (py_strip raw) = ""
  · unfold callback
    simp [hb, hasEphemeral, isEphemeralSend]
  · cases hu : get_username_by_user_id db (py_strip raw) with
    | none =>
      unfold callback
      simp [hb, hu, hasEphemeral, isEphemeralSend]
    | some v =>
      by_cases hl : is_user_linked db (py_strip raw) d = true
      · unfold callback
        simp [hb, hu, hl, hasEphemeral, isEphemeralSend]
      · exfalso
        have : (callback ⟨true, false, un, cd⟩ db raw d).outcome = .linked := by
          unfold callback
          simp [hb, hu, hl]
        rw [this] at hfail
        simp [isFailure] at hfail

/-- Witness for amended C3 at the `UnknownPlayer` path with DMs open. -/
theorem C3_failure_paths_send_ephemeral_witness :
    hasEphemeral (callback ⟨true, false, "alice", "date"⟩ dbUnlinked "UID-404" "42").events =
      true :=
  C3_failure_paths_send_ephemeral "alice" "date" dbUnlinked "UID-404" "42" (by decide)

/-- C4 counterexample: on the `AlreadyLinked` path with the submitter's
DMs closed, the `Forbidden` from the DM leg is caught and logged and the
audit post still goes out, but the ephemeral reply is never attempted —
the DM leg's failure does prevent one of the other two destinations. -/
theorem C4_counterexample_dm_failure_blocks_ephemeral :
    (callback ⟨true, true, "alice", "date"⟩ dbOneLinked "UID-1" "99").outcome =
      LinkOutcome.alreadyLinked ∧
    hasConsoleLog (callback ⟨true, true, "alice", "date"⟩ dbOneLinked "UID-1" "99").events =
      true ∧
    hasAudit (callback ⟨true, true, "alice", "date"⟩ dbOneLinked "UID-1" "99").events =
      true ∧
    hasEphemeral (callback ⟨true, true, "alice", "date"⟩ dbOneLinked "UID-1" "99").events =
      false := by
  decide

/-- C4 (amended): on the notifying failure paths (`UnknownPlayer`,
`AlreadyLinked`) the audit post is attempted independently of the DM leg —
it goes out whether or not the DM raises `Forbidden`, which is caught
narrowly and logged — but the ephemeral reply is sequenced after the DM in
the same `try`, so it is attempted exactly when the DM does not raise. -/
theorem C4_audit_independent_ephemeral_after_dm (forb : Bool) (un cd : String)
    (db : DB) (raw d : String)
    (hpath : (callback ⟨true, forb, un, cd⟩ db raw d).outcome = .unknownPlayer ∨
      (callback ⟨true, forb, un, cd⟩ db raw d).outcome = .alreadyLinked) :
    hasAudit (callback ⟨true, forb, un, cd⟩ db raw d).events = true ∧
    (forb = true →
      hasConsoleLog (callback ⟨true, forb, un, cd⟩ db raw d).events = true ∧
      hasDm (callback ⟨true, forb, un, cd⟩ db raw d).events = false ∧
      hasEphemeral (callback ⟨true, forb, un, cd⟩ db raw d).events = false) ∧
    (forb = false →
      hasDm (callback ⟨true, forb, un, cd⟩ db raw d).events = true ∧
      hasEphemeral (callback ⟨true, forb, un, cd⟩ db raw d).events = true) := by
  by_cases hb : py_strip raw = "" ∨ py_strip (py_strip raw) = ""
  · exfalso
    have : (callback ⟨true, forb, un, cd⟩ db raw d).outcome = .emptyInput := by
      unfold callback
      simp [hb]
    rw [this] at hpath
    simp at hpath
  · cases hu : get_username_by_user_id db (py_strip raw) with
    | none =>
      unfold callback
      cases forb <;>
        simp [hb, hu, hasAudit, hasDm, hasEphemeral, hasConsoleLog,
          isAuditSend, isDmSend, isEphemeralSend, isConsoleLog]
    | some v =>
      by_cases hl : is_user_linked db (py_strip raw) d = true
      · unfold callback
        cases forb <;>
          simp [hb, hu, hl, hasAudit, hasDm, hasEphemeral, hasConsoleLog,
            isAuditSend, isDmSend, isEphemeralSend, isConsoleLog]
      · exfalso
        have : (callback ⟨true, forb, un, cd⟩ db raw d).outcome = .linked := by
          unfold callback
          simp [hb, hu, hl]
        rw [this] at hpath
        simp at hpath

/-- Witness for amended C4 at the `UnknownPlayer` path with DMs closed. -/
theorem C4_audit_independent_ephemeral_after_dm_witness :
    hasAudit (callback ⟨true, true, "bob", "date"⟩ dbUnlinked "UID-7" "55").events = true ∧
    ((true : Bool) = true →
      hasConsoleLog (callback ⟨true, true, "bob", "date"⟩ dbUnlinked "UID-7" "55").events =
        true ∧
      hasDm (callback ⟨true, true, "bob", "date"⟩ dbUnlinked "UID-7" "55").events = false ∧
      hasEphemeral (callback ⟨true, true, "bob", "date"⟩ dbUnlinked "UID-7" "55").events =
        false) ∧
    ((true : Bool) = false →
      hasDm (callback ⟨true, true, "bob", "date"⟩ dbUnlinked "UID-7" "55").events = true ∧
      hasEphemeral (callback ⟨true, true, "bob", "date"⟩ dbUnlinked "UID-7" "55").events =
        true) :=
  C4_audit_independent_ephemeral_after_dm true "bob" "date" dbUnlinked "UID-7" "55"
    (Or.inl (by decide))

end HelixBot
